import Mathlib

/-!
Shallow embedding of the feedback_backend repository: a minimal Django
feedback-collection API.  Source files embedded here:

* src/api/utils.py    - request guard decorators (check_method, required_fields,
                        check_boolean_field, bool_check, pagination, check_token,
                        convert_json_to_POST_data, convert_json_to_request_data)
* src/api/feedback.py - the two handlers get_feedback and post_feedback
* src/db/models.py    - the Feedback model

Requests are modelled explicitly; request field values are modelled by the
`Value` inductive (Python str, bool, int).  The persistence store is a list of
`Feedback` records, threaded through handlers as explicit state.  Handlers
return an `Outcome`: either an HTTP response or an uncaught Python exception.
-/

/-- A request field value: Python str, bool, or int. -/
inductive Value where
  | vStr (s : String)
  | vBool (b : Bool)
  | vInt (n : Int)
deriving Repr, DecidableEq

/-- Normalized request data: the key-value view Django exposes as
request.GET / request.POST / request.data. -/
abbrev ReqData := List (String × Value)

/-- Dictionary lookup on request data: data.get(key) in Python,
returning none when the key is absent. -/
def dataGet? (d : ReqData) (k : String) : Option Value :=
  match d with
  | [] => none
  | (k2, v) :: rest => if k2 = k then some v else dataGet? rest k

/-- An incoming HTTP request: its method, parsed query string (request.GET),
parsed form body (request.POST), and raw body bytes (request.body, as a
string; empty string models an absent body). -/
structure Request where
  method : String
  GET : ReqData
  POST : ReqData
  body : String
deriving Repr, DecidableEq

/-- JSON documents, used for response bodies. -/
inductive Json where
  | null
  | b (x : Bool)
  | s (x : String)
  | i (x : Int)
  | arr (xs : List Json)
  | obj (fields : List (String × Json))

/-- An HTTP response: status code and JSON body (django.http.JsonResponse;
the default status is 200). -/
structure HttpResponse where
  status : Nat
  body : Json

/-- Uncaught Python exceptions that the embedded code can raise. -/
inductive PyExc where
  | keyError (k : String)
  | typeError (msg : String)
  | attributeError (msg : String)

/-- Result of running a handler: an HTTP response, or an exception that
escapes the handler uncaught. -/
inductive Outcome where
  | resp (r : HttpResponse)
  | exc (e : PyExc)

/-- The uniform error envelope: JsonResponse with ok = false and an
error message, at the given status. -/
def errorResponse (code : Nat) (msg : String) : HttpResponse :=
  ⟨code, .obj [("ok", .b false), ("error", .s msg)]⟩

/-- JsonResponse with body ok = true and status 200, as returned by
post_feedback. -/
def okTrueResponse : HttpResponse :=
  ⟨200, .obj [("ok", .b true)]⟩

/-- The Feedback model (src/db/models.py): uuid primary key, nullable
IntegerField rating, nullable TextField text, creation timestamp
defaulted to datetime.now.  The uuid is modelled as a Nat; the timestamp
as a Nat clock reading; the columns hold the database values after field
coercion (an integer for rating, a string for text). -/
structure Feedback where
  id : Nat
  rating : Option Int
  text : Option String
  date_created : Nat
deriving Repr, DecidableEq

/-- The persistence store: all Feedback rows. -/
abbrev Store := List Feedback

/-- Python truthiness of a request value: non-empty strings, true, and
non-zero ints are truthy. -/
def pyTruthy : Value → Bool
  | .vStr s => s ≠ ""
  | .vBool b => b
  | .vInt n => n ≠ 0

/-- The numeric value of a list of decimal digit characters; none when
empty or when any character is not a digit. -/
def digitsVal (cs : List Char) : Option Nat :=
  if cs = [] then none
  else if cs.all Char.isDigit then
    some (cs.foldl (fun acc c => acc * 10 + (c.toNat - 48)) 0)
  else none

/-- ASCII whitespace, as stripped by Python int() from its string
argument. -/
def isPySpace (c : Char) : Bool := c = ' ' ∨ c = '\t' ∨ c = '\n' ∨ c = '\r'

/-- Strip leading and trailing whitespace from a character list. -/
def pyStrip (cs : List Char) : List Char :=
  (((cs.dropWhile isPySpace).reverse).dropWhile isPySpace).reverse

/-- Python int() applied to a string: strips surrounding whitespace,
allows one leading sign, then requires decimal digits; ValueError is
modelled as none. -/
def pyIntOfString (s : String) : Option Int :=
  match pyStrip s.data with
  | '-' :: rest => (digitsVal rest).map (fun n => -(n : Int))
  | '+' :: rest => (digitsVal rest).map (fun n => (n : Int))
  | cs => (digitsVal cs).map (fun n => (n : Int))

/-- Python int() applied to a request value: ints pass through, booleans
become 1 or 0, strings are parsed; ValueError is modelled as none. -/
def pyInt : Value → Option Int
  | .vInt n => some n
  | .vBool b => some (if b then 1 else 0)
  | .vStr s => pyIntOfString s

/-- str() of a Python bool. -/
def pyStrOfBool (b : Bool) : String := if b then "True" else "False"

/-- str() of a request value, as TextField coerces a non-None value. -/
def pyStr : Value → String
  | .vStr s => s
  | .vBool b => pyStrOfBool b
  | .vInt n => toString n

/-- IntegerField value preparation at save time (src/db/models.py line 11
declares rating = models.IntegerField with null=True): None is stored as
is, any other value goes through int(), whose ValueError on a non-numeric
value (the empty string included) is modelled as the outer none. -/
def integerFieldPrep : Option Value → Option (Option Int)
  | none => some none
  | some v =>
    match pyInt v with
    | some n => some (some n)
    | none => none

/-- TextField value preparation at save time: None is stored as is, any
other value is coerced with str(), which never fails. -/
def textFieldPrep : Option Value → Option String
  | none => none
  | some v => some (pyStr v)

/-- The type of a guarded inner handler: it receives the request, the
normalized request.data set by an outer guard, and the store. -/
abbrev Handler := Request → ReqData → Store → Outcome × Store

/-- A lenient model of django.http.QueryDict applied to a raw body:
splits on ampersands, each token at its first equals sign.  Only reached
by check_method for methods other than GET and POST, which no route in
this repository uses. -/
def queryDictParse (s : String) : ReqData :=
  (s.splitOn "&").filterMap fun tok =>
    if tok = "" then none
    else match tok.splitOn "=" with
      | [] => none
      | k :: rest => some (k, .vStr (String.intercalate "=" rest))

/-- check_method (src/api/utils.py lines 125-149): if the request method
differs from the expected one, short-circuit with a 400 Invalid Method
error; otherwise set request.data from request.POST for POST, request.GET
for GET, and QueryDict of the raw body otherwise, then call the wrapped
handler. -/
def check_method (method : String) (handler : Handler) :
    Request → Store → Outcome × Store :=
  fun req store =>
    if req.method = method then
      let data :=
        if method ≠ "POST" ∧ method ≠ "GET" then queryDictParse req.body
        else if method = "POST" then req.POST
        else req.GET
      handler req data store
    else (.resp (errorResponse 400 "Invalid Method"), store)

/-- required_fields (src/api/utils.py lines 171-191): iterate the field
list in order; on the first field absent from request.data, short-circuit
with a 400 error naming that field; otherwise call the wrapped handler
unchanged.  Presence alone is checked, never the value. -/
def required_fields (fields : List String) (handler : Handler) : Handler :=
  fun req data store =>
    match fields.find? (fun fld => (dataGet? data fld).isNone) with
    | some fld => (.resp (errorResponse 400 ("Missing key " ++ fld)), store)
    | none => handler req data store

/-- The insert step of Feedback.objects.create with the Django defaults:
a fresh uuid (modelled by the newId parameter) and date_created defaulted
to the current clock reading.  Takes the already field-prepared column
values and appends the new row to the store. -/
def feedbackCreate (store : Store) (newId now : Nat)
    (rating : Option Int) (text : Option String) : Feedback × Store :=
  let fb : Feedback := ⟨newId, rating, text, now⟩
  (fb, store ++ [fb])

/-- Whether msilib.schema.Error is an exception class.  feedback.py line 1
imports Error from msilib.schema, where Error is a Table instance (a
database table description), not a subclass of BaseException; Python
refuses to match a raised exception against a non-exception class and
raises TypeError instead. -/
def msilibSchemaErrorIsExceptionClass : Bool := false

/-- The message Python raises when an except clause names an object that
is not an exception class. -/
def exceptNonExceptionClassMsg : String :=
  "catching classes that do not inherit from BaseException is not allowed"

/-- The body of post_feedback (src/api/feedback.py lines 32-49), after
its guards: read rating and text from request.data and attempt
Feedback.objects.create inside a try guarded by except Error, where Error
is msilib.schema.Error; respond ok = true.  create first prepares the
column values: the IntegerField coercion int(rating) raises ValueError on
a non-numeric rating such as the empty string; the persistRaises
parameter models the store raising a constraint violation on an otherwise
well-typed insert.  In either failure the except clause names a
non-exception object (a msilib Table), so Python raises TypeError at the
match instead of catching (and the intended django.db.utils.Error would
not match a ValueError either): the failure escapes the handler. -/
def post_feedback_inner (newId now : Nat) (persistRaises : Bool) : Handler :=
  fun _ data store =>
    let rating := dataGet? data "rating"
    let text := dataGet? data "text"
    match integerFieldPrep rating with
    | none => (.exc (.typeError exceptNonExceptionClassMsg), store)
    | some r =>
      if persistRaises then
        if msilibSchemaErrorIsExceptionClass then
          (.resp okTrueResponse, store)
        else
          (.exc (.typeError exceptNonExceptionClassMsg), store)
      else
        let (_, store2) := feedbackCreate store newId now r (textFieldPrep text)
        (.resp okTrueResponse, store2)

/-- post_feedback (src/api/feedback.py lines 24-49): the full decorated
endpoint, check_method POST then required_fields rating, text, then the
handler body. -/
def post_feedback (newId now : Nat) (persistRaises : Bool) :
    Request → Store → Outcome × Store :=
  check_method "POST"
    (required_fields ["rating", "text"] (post_feedback_inner newId now persistRaises))

/-- The sort relation of order_by on minus date_created: descending by
creation time, newest first. -/
def fbGE (a b : Feedback) : Prop := b.date_created ≤ a.date_created

instance : DecidableRel fbGE :=
  fun a b => inferInstanceAs (Decidable (b.date_created ≤ a.date_created))

instance : IsTotal Feedback fbGE :=
  ⟨fun a b => Nat.le_total b.date_created a.date_created⟩

instance : IsTrans Feedback fbGE :=
  ⟨fun _ _ _ hab hbc => Nat.le_trans hbc hab⟩

/-- Feedback.objects.all().order_by(minus date_created): all rows sorted
descending by creation time. -/
def order_by_date_created_desc (store : Store) : List Feedback :=
  List.insertionSort fbGE store

/-- An integer column rendered into JSON; None becomes null. -/
def intFieldToJson : Option Int → Json
  | none => .null
  | some n => .i n

/-- A text column rendered into JSON; None becomes null. -/
def textFieldToJson : Option String → Json
  | none => .null
  | some s => .s s

/-- Modelled from the spec: FeedbackSerializer (db/serializer.py is not in
the repository snapshot; only its import in src/api/feedback.py is).  Per
spec section 4.2, each record is serialized to the mapping with keys id,
rating, text, date_created. -/
def serializeFeedback (fb : Feedback) : Json :=
  .obj [("id", .i fb.id), ("rating", intFieldToJson fb.rating),
        ("text", textFieldToJson fb.text), ("date_created", .i fb.date_created)]

/-- The success body of get_feedback: ok = true with the serialized rows
as data. -/
def listResponse (rows : List Feedback) : HttpResponse :=
  ⟨200, .obj [("ok", .b true), ("data", .arr (rows.map serializeFeedback))]⟩

/-- get_feedback (src/api/feedback.py lines 12-22): check_method GET, then
fetch all Feedback ordered by date_created descending, serialize, and
respond ok = true with the data array. -/
def get_feedback : Request → Store → Outcome × Store :=
  check_method "GET" (fun _ _ store =>
    (.resp (listResponse (order_by_date_created_desc store)), store))

/-- ASCII lowercase of one character, as str.lower does on ASCII input. -/
def lowerChar (c : Char) : Char :=
  if 'A' ≤ c ∧ c ≤ 'Z' then Char.ofNat (c.toNat + 32) else c

/-- ASCII lowercase of a string, as val.lower() inside strtobool. -/
def pyLower (s : String) : String := ⟨s.data.map lowerChar⟩

/-- distutils.util.strtobool: lowercases its string argument and maps the
recognised truthy spellings to 1 and falsy spellings to 0, raising
ValueError otherwise (modelled as none). -/
def strtobool (s : String) : Option Bool :=
  let v := pyLower s
  if v = "y" ∨ v = "yes" ∨ v = "t" ∨ v = "true" ∨ v = "on" ∨ v = "1" then some true
  else if v = "n" ∨ v = "no" ∨ v = "f" ∨ v = "false" ∨ v = "off" ∨ v = "0" then
    some false
  else none

/-- The message of the AttributeError raised when strtobool is applied to
a non-string value (it calls .lower() on its argument). -/
def strtoboolNonStringMsg : String := "object has no attribute lower"

/-- Handler type for check_boolean_field: the coerced booleans are passed
to the wrapped function as keyword arguments, modelled as a name-bool
association list. -/
abbrev BoolKwHandler := Request → ReqData → List (String × Bool) → Store → Outcome × Store

/-- The field loop of check_boolean_field (src/api/utils.py lines 99-118):
for each listed field, a bool value is taken as is; a truthy non-bool
value goes through strtobool, where ValueError is caught as a 400 invalid
boolean error but the AttributeError from a non-string value escapes; a
falsy or absent value is skipped. -/
def check_boolean_field_go (handler : BoolKwHandler) (req : Request)
    (data : ReqData) (store : Store) :
    List String → List (String × Bool) → Outcome × Store
  | [], acc => handler req data acc store
  | fld :: rest, acc =>
    match dataGet? data fld with
    | some (.vBool b) => check_boolean_field_go handler req data store rest (acc ++ [(fld, b)])
    | some v =>
      if pyTruthy v then
        match v with
        | .vStr s =>
          match strtobool s with
          | some b => check_boolean_field_go handler req data store rest (acc ++ [(fld, b)])
          | none =>
            (.resp (errorResponse 400 ("Invalid boolean format for " ++ fld)), store)
        | _ => (.exc (.attributeError strtoboolNonStringMsg), store)
      else check_boolean_field_go handler req data store rest acc
    | none => check_boolean_field_go handler req data store rest acc

/-- check_boolean_field (src/api/utils.py lines 92-122): coerce each
listed field to a strict boolean and supply the results to the wrapped
handler as keyword arguments. -/
def check_boolean_field (fields : List String) (handler : BoolKwHandler) : Handler :=
  fun req data store => check_boolean_field_go handler req data store fields []

/-- Handler type for bool_check: the coerced booleans are passed as extra
positional arguments, in the order listed. -/
abbrev BoolPosHandler := Request → ReqData → List Bool → Store → Outcome × Store

/-- The field loop of bool_check (src/api/utils.py lines 312-324): each
listed field is read with data.get and passed to strtobool under a bare
except clause, so a missing field, a non-string value (bool included), or
an unrecognised truth string all yield the 400 invalid-truth-value
response. -/
def bool_check_go (handler : BoolPosHandler) (req : Request) (data : ReqData)
    (store : Store) : List String → List Bool → Outcome × Store
  | [], acc => handler req data acc store
  | fld :: rest, acc =>
    match dataGet? data fld with
    | some (.vStr s) =>
      match strtobool s with
      | some b => bool_check_go handler req data store rest (acc ++ [b])
      | none =>
        (.resp (errorResponse 400 "Truth values passed from front end is not correct"),
         store)
    | _ =>
      (.resp (errorResponse 400 "Truth values passed from front end is not correct"),
       store)

/-- bool_check (src/api/utils.py lines 304-328): coerce each listed field
from its string form to a boolean and supply the results to the wrapped
handler as additional positional arguments. -/
def bool_check (fields : List String) (handler : BoolPosHandler) : Handler :=
  fun req data store => bool_check_go handler req data store fields []

/-- The try block shared by the page and items_per_page checks of
pagination (src/api/utils.py lines 254-277): int() the value and raise
ValueError when the result is below 1; both failure modes are caught by
the same except clause, modelled as none. -/
def checkedPosInt (v : Value) : Option Int :=
  match pyInt v with
  | none => none
  | some p => if p < 1 then none else some p

/-- Handler type for pagination: the wrapped function receives page,
items_per_page and the signed sort key as extra positional arguments. -/
abbrev PageHandler := Request → ReqData → Int → Int → String → Store → Outcome × Store

/-- pagination (src/api/utils.py lines 224-301): validate sort_by against
the allow-list, page and items_per_page as integers at least 1, and
is_ascending via strtobool; any validation failure short-circuits with a
400 error naming the parameter; on success the sort field is prefixed
with the descending marker when not ascending, and page, items_per_page
and the signed sort key are supplied to the handler. -/
def pagination (default_sort_by : String) (fields : List String)
    (default_page : Int) (default_items_per_page : Int)
    (default_is_ascending : Bool) (handler : PageHandler) : Handler :=
  fun req data store =>
    let sort_by0 : Value := (dataGet? data "sort_by").getD (.vStr default_sort_by)
    let sortName : Option String :=
      match sort_by0 with
      | .vStr s => if fields.contains s then some s else none
      | _ => none
    match sortName with
    | none => (.resp (errorResponse 400 "Invalid sort_by Value For Pagination"), store)
    | some s =>
      match checkedPosInt ((dataGet? data "page").getD (.vInt default_page)) with
      | none => (.resp (errorResponse 400 "Invalid page Value For Pagination"), store)
      | some page =>
        match checkedPosInt
            ((dataGet? data "items_per_page").getD (.vInt default_items_per_page)) with
        | none =>
          (.resp (errorResponse 400 "Invalid items_per_page Value For Pagination"),
           store)
        | some items_per_page =>
          match (dataGet? data "is_ascending").getD
              (.vStr (pyStrOfBool default_is_ascending)) with
          | .vStr bs =>
            match strtobool bs with
            | none =>
              (.resp (errorResponse 400 "Invalid is_ascending Value For Pagination"),
               store)
            | some is_ascending =>
              let sort_by := if is_ascending then s else "-" ++ s
              handler req data page items_per_page sort_by store
          | _ => (.exc (.attributeError strtoboolNonStringMsg), store)

/-- check_token (src/api/utils.py lines 152-168): read the secret and
token fields by subscript (a missing field raises an uncaught lookup
error, modelled as keyError) and compare them against the SECRET_KEY and
TOKEN constants; a mismatch yields a 401 Invalid Token response.
Modelled from the spec in part: the constants SECRET_KEY and TOKEN are
process configuration not present under src, so they are parameters here,
per spec section 4.1 shared-secret guard. -/
def check_token (SECRET_KEY TOKEN : String) (handler : Handler) : Handler :=
  fun req data store =>
    match dataGet? data "secret" with
    | none => (.exc (.keyError "secret"), store)
    | some secret =>
      match dataGet? data "token" with
      | none => (.exc (.keyError "token"), store)
      | some token =>
        if secret = .vStr SECRET_KEY ∧ token = .vStr TOKEN then
          handler req data store
        else (.resp (errorResponse 401 "Invalid Token"), store)

/-- The body-parsing chain shared by convert_json_to_POST_data and
convert_json_to_request_data: try json.loads first, fall back to
QueryDict parsing, none when both fail.  The two library parsers are
abstracted as parameters. -/
def parseBody (jsonParse urlencParse : String → Option ReqData)
    (body : String) : Option ReqData :=
  match jsonParse body with
  | some d => some d
  | none => urlencParse body

/-- convert_json_to_POST_data (src/api/utils.py lines 42-66): on a POST
or PUT request carrying a body, parse it as JSON, falling back to
URL-encoded form data, and hand the parsed mapping to the handler as
request.data; when both parses fail respond 400 Unrecognisable Format;
otherwise pass through with request.data unchanged. -/
def convert_json_to_POST_data (jsonParse urlencParse : String → Option ReqData)
    (handler : Handler) : Handler :=
  fun req data0 store =>
    if (req.method = "POST" ∨ req.method = "PUT") ∧ req.body ≠ "" then
      match parseBody jsonParse urlencParse req.body with
      | some d => handler req d store
      | none => (.resp (errorResponse 400 "Unrecognisable Format"), store)
    else handler req data0 store

/-- convert_json_to_request_data (src/api/utils.py lines 354-380): same
parsing chain as convert_json_to_POST_data, but a method other than POST
or PUT is rejected with 400 Invalid Method. -/
def convert_json_to_request_data (jsonParse urlencParse : String → Option ReqData)
    (handler : Handler) : Handler :=
  fun req data0 store =>
    if req.method = "POST" ∨ req.method = "PUT" then
      if req.body ≠ "" then
        match parseBody jsonParse urlencParse req.body with
        | some d => handler req d store
        | none => (.resp (errorResponse 400 "Unrecognisable Format"), store)
      else handler req data0 store
    else (.resp (errorResponse 400 "Invalid Method"), store)

/-! Concrete fixtures used by witness theorems. -/

/-- A well-formed create request: POST with rating and text form fields. -/
def reqPostHi : Request :=
  ⟨"POST", [], [("rating", .vStr "5"), ("text", .vStr "hi")], ""⟩

/-- A POST request with no form fields at all. -/
def reqPostNone : Request := ⟨"POST", [], [], ""⟩

/-- A POST request whose rating and text fields are empty strings. -/
def reqPostEmptyVals : Request :=
  ⟨"POST", [], [("rating", .vStr ""), ("text", .vStr "")], ""⟩

/-- A plain GET request. -/
def reqGetNil : Request := ⟨"GET", [], [], ""⟩

/-- A store holding two rows, inserted oldest first. -/
def store2 : Store :=
  [⟨1, some 3, some "a", 10⟩, ⟨2, some 4, some "b", 20⟩]

/-- An inner handler that just responds ok = true, for exercising guards
in isolation. -/
def trivialHandler : Handler := fun _ _ store => (.resp okTrueResponse, store)

/-- Claim C5: a request whose method differs from the one check_method
expects gets the 400 Invalid Method response; the wrapped handler (an
arbitrary one) is never invoked and the store is returned unchanged. -/
theorem check_method_wrong_method_no_effect (m : String) (handler : Handler)
    (req : Request) (store : Store) (hm : req.method ≠ m) :
    check_method m handler req store =
      (.resp (errorResponse 400 "Invalid Method"), store) := by
  simp [check_method, hm]

/-- Witness for C5: a POST request hitting the GET-guarded list endpoint
wrapper is rejected with 400 Invalid Method and the store is unchanged. -/
theorem check_method_wrong_method_no_effect_witness :
    check_method "GET" (post_feedback_inner 0 0 false) reqPostHi store2 =
      (.resp (errorResponse 400 "Invalid Method"), store2) :=
  check_method_wrong_method_no_effect "GET" (post_feedback_inner 0 0 false)
    reqPostHi store2 (by decide)

/-- Claim C4: a create request missing rating is answered 400 naming
rating (also when text is missing too, since the guard iterates the field
list in declared order and short-circuits on the first absent field); a
request with rating present but text missing is answered 400 naming
text. -/
theorem post_feedback_missing_field_named (newId now : Nat) (pr : Bool)
    (req : Request) (store : Store) (hm : req.method = "POST") :
    (dataGet? req.POST "rating" = none →
      post_feedback newId now pr req store =
        (.resp (errorResponse 400 "Missing key rating"), store)) ∧
    (∀ v, dataGet? req.POST "rating" = some v → dataGet? req.POST "text" = none →
      post_feedback newId now pr req store =
        (.resp (errorResponse 400 "Missing key text"), store)) := by
  constructor
  · intro hr
    simp [post_feedback, check_method, hm, required_fields, List.find?, hr]
  · intro v hr ht
    simp [post_feedback, check_method, hm, required_fields, List.find?, hr, ht]

/-- Witness for C4: posting with no fields at all names rating, and
posting with only rating names text. -/
theorem post_feedback_missing_field_named_witness :
    post_feedback 0 0 false reqPostNone store2 =
      (.resp (errorResponse 400 "Missing key rating"), store2) :=
  (post_feedback_missing_field_named 0 0 false reqPostNone store2 rfl).1 rfl

/-- Evaluation of int() on the empty string: ValueError. -/
theorem pyIntOfString_empty_eval : pyIntOfString "" = none := by decide

/-- Counterexample to claim C10 as stated: on the concrete create request
whose rating and text fields are present but empty strings, the handler
does NOT respond ok = true.  The IntegerField coercion int() of the
empty-string rating raises ValueError inside the try of create, the
except clause names the msilib.schema.Error Table (not an exception
class), so a TypeError escapes the handler and nothing is stored. -/
theorem post_feedback_empty_values_counterexample :
    post_feedback 9 40 false reqPostEmptyVals store2 =
      (.exc (.typeError exceptNonExceptionClassMsg), store2) ∧
    (post_feedback 9 40 false reqPostEmptyVals store2).1 ≠ .resp okTrueResponse := by
  refine ⟨rfl, ?_⟩
  simp only [show post_feedback 9 40 false reqPostEmptyVals store2 =
      (.exc (.typeError exceptNonExceptionClassMsg), store2) from rfl]
  simp

/-- Claim C10 (amended): the required-fields guard checks only that each
listed key is present, never that its value is non-empty, so a create
request with empty-string rating and text passes the guard and control
reaches the handler body; but the handler does not respond ok = true: the
IntegerField coercion int() of the empty-string rating raises ValueError
during create, which the except clause (naming a non-exception msilib
Table) cannot catch, so an exception escapes with the store unchanged. -/
theorem post_feedback_empty_values_guard_passes (newId now : Nat)
    (req : Request) (store : Store) (hm : req.method = "POST")
    (hr : dataGet? req.POST "rating" = some (.vStr ""))
    (ht : dataGet? req.POST "text" = some (.vStr "")) :
    post_feedback newId now false req store =
      post_feedback_inner newId now false req req.POST store ∧
    post_feedback newId now false req store =
      (.exc (.typeError exceptNonExceptionClassMsg), store) := by
  constructor
  · simp [post_feedback, check_method, hm, required_fields, List.find?, hr, ht]
  · simp [post_feedback, check_method, hm, required_fields, List.find?, hr, ht,
          post_feedback_inner, integerFieldPrep, pyInt, pyIntOfString_empty_eval]

/-- Witness for the amended C10: the concrete empty-valued create request
reaches the handler body past the guard and raises. -/
theorem post_feedback_empty_values_guard_passes_witness :
    post_feedback 9 40 false reqPostEmptyVals store2 =
      post_feedback_inner 9 40 false reqPostEmptyVals reqPostEmptyVals.POST store2 ∧
    post_feedback 9 40 false reqPostEmptyVals store2 =
      (.exc (.typeError exceptNonExceptionClassMsg), store2) :=
  post_feedback_empty_values_guard_passes 9 40 reqPostEmptyVals store2 rfl rfl rfl

/-- Claim C2 (refuted; the code is at fault): when the insert raises a
storage constraint violation, the except clause of post_feedback names
msilib.schema.Error, which is a Table object rather than an exception
class, so the failure is NOT caught: a TypeError escapes the handler
instead of the documented caught-logged-then-ok response.  This theorem
evaluates the endpoint at the failing input. -/
theorem post_feedback_storage_error_escapes :
    post_feedback 7 30 true reqPostHi store2 =
      (.exc (.typeError exceptNonExceptionClassMsg), store2) := rfl

/-- Claim C3: for any store, the list endpoint responds ok = true with a
data array that serializes some arrangement `rows` of exactly the stored
records (a permutation of the store), sorted by date_created descending,
each record serialized to the id, rating, text, date_created mapping. -/
theorem get_feedback_sorted_desc (req : Request) (store : Store)
    (hm : req.method = "GET") :
    ∃ rows : List Feedback,
      get_feedback req store =
        (.resp ⟨200, .obj [("ok", .b true),
                           ("data", .arr (rows.map serializeFeedback))]⟩, store) ∧
      rows.Perm store ∧ List.Sorted fbGE rows := by
  refine ⟨order_by_date_created_desc store, ?_, ?_, ?_⟩
  · simp [get_feedback, check_method, hm, listResponse]
  · exact List.perm_insertionSort fbGE store
  · exact List.sorted_insertionSort fbGE store

/-- Witness for C3: the list endpoint on the two-row fixture store. -/
theorem get_feedback_sorted_desc_witness :
    ∃ rows : List Feedback,
      get_feedback reqGetNil store2 =
        (.resp ⟨200, .obj [("ok", .b true),
                           ("data", .arr (rows.map serializeFeedback))]⟩, store2) ∧
      rows.Perm store2 ∧ List.Sorted fbGE rows :=
  get_feedback_sorted_desc reqGetNil store2 rfl

/-- Claim C1: creating feedback from a valid rating-text pair (both form
fields present, the rating a string int() accepts as the integer r,
persistence succeeding) appends a row carrying that rating and text with
date_created at least the pre-creation clock reading t0, and listing
afterwards responds ok = true with a data array containing the
serialization of that row. -/
theorem create_then_list_contains (newId now t0 : Nat) (rs ts : String) (r : Int)
    (reqP reqG : Request) (store : Store)
    (hmP : reqP.method = "POST")
    (hr : dataGet? reqP.POST "rating" = some (.vStr rs))
    (hvalid : pyIntOfString rs = some r)
    (ht : dataGet? reqP.POST "text" = some (.vStr ts))
    (hmG : reqG.method = "GET")
    (hclock : t0 ≤ now) :
    ∃ fb : Feedback,
      (post_feedback newId now false reqP store).2 = store ++ [fb] ∧
      fb.rating = some r ∧ fb.text = some ts ∧ t0 ≤ fb.date_created ∧
      ∃ rows : List Feedback,
        get_feedback reqG (store ++ [fb]) =
          (.resp ⟨200, .obj [("ok", .b true),
                             ("data", .arr (rows.map serializeFeedback))]⟩,
           store ++ [fb]) ∧
        fb ∈ rows ∧ serializeFeedback fb ∈ rows.map serializeFeedback := by
  refine ⟨⟨newId, some r, some ts, now⟩, ?_, rfl, rfl, hclock, ?_⟩
  · simp [post_feedback, check_method, hmP, required_fields, List.find?, hr, ht,
          post_feedback_inner, integerFieldPrep, pyInt, hvalid, textFieldPrep,
          pyStr, feedbackCreate]
  · have hmem : (⟨newId, some r, some ts, now⟩ : Feedback) ∈
        order_by_date_created_desc (store ++ [⟨newId, some r, some ts, now⟩]) :=
      (List.perm_insertionSort fbGE _).mem_iff.mpr (by simp)
    refine ⟨order_by_date_created_desc (store ++ [⟨newId, some r, some ts, now⟩]),
            ?_, hmem, List.mem_map_of_mem _ hmem⟩
    simp [get_feedback, check_method, hmG, listResponse]

/-- Witness for C1: posting rating 5 and text hi to the two-row fixture
store, then listing. -/
theorem create_then_list_contains_witness :
    ∃ fb : Feedback,
      (post_feedback 7 30 false reqPostHi store2).2 = store2 ++ [fb] ∧
      fb.rating = some 5 ∧ fb.text = some "hi" ∧
      10 ≤ fb.date_created ∧
      ∃ rows : List Feedback,
        get_feedback reqGetNil (store2 ++ [fb]) =
          (.resp ⟨200, .obj [("ok", .b true),
                             ("data", .arr (rows.map serializeFeedback))]⟩,
           store2 ++ [fb]) ∧
        fb ∈ rows ∧ serializeFeedback fb ∈ rows.map serializeFeedback :=
  create_then_list_contains 7 30 10 "5" "hi" 5 reqPostHi reqGetNil
    store2 rfl rfl (by decide) rfl rfl (by decide)

/-- Evaluation of strtobool on the spelling true. -/
theorem strtobool_true_eval : strtobool "true" = some true := by decide

/-- Evaluation of strtobool on the spelling 1. -/
theorem strtobool_one_eval : strtobool "1" = some true := by decide

/-- Evaluation of strtobool on the spelling false. -/
theorem strtobool_false_eval : strtobool "false" = some false := by decide

/-- Evaluation of strtobool on the spelling 0. -/
theorem strtobool_zero_eval : strtobool "0" = some false := by decide

/-- Evaluation of strtobool on str(False), the pagination default. -/
theorem strtobool_False_eval : strtobool "False" = some false := by decide

/-- Evaluation of strtobool on an unrecognised spelling. -/
theorem strtobool_maybe_eval : strtobool "maybe" = none := by decide

/-- Claim C6: the boolean-coercion guard check_boolean_field maps the
string true, the string 1 and the boolean true to true; the string false,
the string 0 and the boolean false to false, supplying the coerced value
to the wrapped handler; and an un-coercible value such as the string
maybe short-circuits with the 400 invalid-boolean error. -/
theorem check_boolean_field_coercions (handler : BoolKwHandler) (req : Request)
    (store : Store) (fld : String) (rest : ReqData) :
    (check_boolean_field [fld] handler req ((fld, .vStr "true") :: rest) store =
       handler req ((fld, .vStr "true") :: rest) [(fld, true)] store) ∧
    (check_boolean_field [fld] handler req ((fld, .vStr "1") :: rest) store =
       handler req ((fld, .vStr "1") :: rest) [(fld, true)] store) ∧
    (check_boolean_field [fld] handler req ((fld, .vBool true) :: rest) store =
       handler req ((fld, .vBool true) :: rest) [(fld, true)] store) ∧
    (check_boolean_field [fld] handler req ((fld, .vStr "false") :: rest) store =
       handler req ((fld, .vStr "false") :: rest) [(fld, false)] store) ∧
    (check_boolean_field [fld] handler req ((fld, .vStr "0") :: rest) store =
       handler req ((fld, .vStr "0") :: rest) [(fld, false)] store) ∧
    (check_boolean_field [fld] handler req ((fld, .vBool false) :: rest) store =
       handler req ((fld, .vBool false) :: rest) [(fld, false)] store) ∧
    (check_boolean_field [fld] handler req ((fld, .vStr "maybe") :: rest) store =
       (.resp (errorResponse 400 ("Invalid boolean format for " ++ fld)), store)) := by
  refine ⟨?_, ?_, ?_, ?_, ?_, ?_, ?_⟩ <;>
    simp [check_boolean_field, check_boolean_field_go, dataGet?, pyTruthy,
          strtobool_true_eval, strtobool_one_eval, strtobool_false_eval,
          strtobool_zero_eval, strtobool_maybe_eval]

/-- Claim C7: the pagination guard rejects with 400 a sort_by outside the
allow-list, a page that is non-numeric or below 1, and an items_per_page
that is non-numeric or below 1, each error naming the parameter; and on
success with is_ascending left to its default false it supplies the sort
field prefixed with the descending marker, together with page and
items_per_page as integers. -/
theorem pagination_guard_spec (dsb : String) (fields : List String)
    (handler : PageHandler) (req : Request) (data : ReqData) (store : Store)
    (s : String)
    (hs : dataGet? data "sort_by" = some (.vStr s))
    (hasc : dataGet? data "is_ascending" = none) :
    (s ∉ fields →
      pagination dsb fields 1 100 false handler req data store =
        (.resp (errorResponse 400 "Invalid sort_by Value For Pagination"), store)) ∧
    (s ∈ fields → ∀ v, dataGet? data "page" = some v →
      (pyInt v = none ∨ ∃ p, pyInt v = some p ∧ p < 1) →
      pagination dsb fields 1 100 false handler req data store =
        (.resp (errorResponse 400 "Invalid page Value For Pagination"), store)) ∧
    (s ∈ fields → ∀ v p, dataGet? data "page" = some v → pyInt v = some p → 1 ≤ p →
      ∀ w, dataGet? data "items_per_page" = some w →
      (pyInt w = none ∨ ∃ i, pyInt w = some i ∧ i < 1) →
      pagination dsb fields 1 100 false handler req data store =
        (.resp (errorResponse 400 "Invalid items_per_page Value For Pagination"),
         store)) ∧
    (s ∈ fields → ∀ v p, dataGet? data "page" = some v → pyInt v = some p → 1 ≤ p →
      ∀ w i, dataGet? data "items_per_page" = some w → pyInt w = some i → 1 ≤ i →
      pagination dsb fields 1 100 false handler req data store =
        handler req data p i ("-" ++ s) store) := by
  refine ⟨?_, ?_, ?_, ?_⟩
  · intro hns
    have hc : fields.contains s = false := by simpa using hns
    simp [pagination, hs, hc, hns]
  · intro hsm v hv hbad
    have hc : fields.contains s = true := by simpa using hsm
    rcases hbad with hnone | ⟨p, hp, hlt⟩
    · simp [pagination, hs, hc, hsm, hv, checkedPosInt, hnone]
    · simp [pagination, hs, hc, hsm, hv, checkedPosInt, hp, hlt]
  · intro hsm v p hv hp hge w hw hbad
    have hc : fields.contains s = true := by simpa using hsm
    have hnlt : ¬ p < 1 := by omega
    rcases hbad with hnone | ⟨i, hi, hlt⟩
    · simp [pagination, hs, hc, hsm, hv, hw, checkedPosInt, hp, hnlt, hnone]
    · simp [pagination, hs, hc, hsm, hv, hw, checkedPosInt, hp, hnlt, hi, hlt]
  · intro hsm v p hv hp hge w i hw hi hgei
    have hc : fields.contains s = true := by simpa using hsm
    have hnlt : ¬ p < 1 := by omega
    have hnlti : ¬ i < 1 := by omega
    simp [pagination, hs, hc, hsm, hv, hw, hasc, checkedPosInt, hp, hnlt, hi, hnlti,
          pyStrOfBool, strtobool_False_eval]

/-- A page handler that just responds ok = true, for exercising the
pagination guard in isolation. -/
def trivialPageHandler : PageHandler :=
  fun _ _ _ _ _ store => (.resp okTrueResponse, store)

/-- Request data asking for page 2 of 50 items sorted by date_created. -/
def pageData : ReqData :=
  [("sort_by", .vStr "date_created"), ("page", .vStr "2"),
   ("items_per_page", .vStr "50")]

/-- Witness for C7: the success path on concrete pagination parameters,
showing the descending-marked sort key and the parsed integers reach the
handler. -/
theorem pagination_guard_spec_witness :
    pagination "date_created" ["date_created", "rating"] 1 100 false
        trivialPageHandler reqGetNil pageData [] =
      trivialPageHandler reqGetNil pageData 2 50 ("-" ++ "date_created") [] :=
  (pagination_guard_spec "date_created" ["date_created", "rating"]
      trivialPageHandler reqGetNil pageData [] "date_created" (by decide)
      (by decide)).2.2.2
    (by decide) (.vStr "2") 2 (by decide) (by decide) (by decide)
    (.vStr "50") 50 (by decide) (by decide) (by decide)

/-- Claim C8: the body-normalization guards attempt JSON parsing first
and fall back to URL-encoded parsing; a POST body on which both parsers
fail is answered 400 Unrecognisable Format (by both guard variants), a
JSON-parsable body reaches the handler as the JSON parse even when the
URL-encoded parse would also succeed, and a body only the URL-encoded
parser accepts reaches the handler as that fallback parse. -/
theorem body_normalization_spec (jsonParse urlencParse : String → Option ReqData)
    (handler : Handler) (req : Request) (data0 : ReqData) (store : Store)
    (hm : req.method = "POST") (hb : req.body ≠ "") :
    (jsonParse req.body = none → urlencParse req.body = none →
      convert_json_to_request_data jsonParse urlencParse handler req data0 store =
        (.resp (errorResponse 400 "Unrecognisable Format"), store) ∧
      convert_json_to_POST_data jsonParse urlencParse handler req data0 store =
        (.resp (errorResponse 400 "Unrecognisable Format"), store)) ∧
    (∀ d, jsonParse req.body = some d →
      convert_json_to_request_data jsonParse urlencParse handler req data0 store =
        handler req d store) ∧
    (∀ d, jsonParse req.body = none → urlencParse req.body = some d →
      convert_json_to_request_data jsonParse urlencParse handler req data0 store =
        handler req d store) := by
  refine ⟨?_, ?_, ?_⟩
  · intro hj hu
    constructor <;>
      simp [convert_json_to_request_data, convert_json_to_POST_data, parseBody,
            hm, hb, hj, hu]
  · intro d hj
    simp [convert_json_to_request_data, parseBody, hm, hb, hj]
  · intro d hj hu
    simp [convert_json_to_request_data, parseBody, hm, hb, hj, hu]

/-- A POST request carrying a raw body. -/
def reqPostBody : Request := ⟨"POST", [], [], "xx"⟩

/-- Witness for C8: with parsers that both fail on the concrete body, the
guard responds 400 Unrecognisable Format. -/
theorem body_normalization_spec_witness :
    convert_json_to_request_data (fun _ => none) (fun _ => none) trivialHandler
        reqPostBody [] [] =
      (.resp (errorResponse 400 "Unrecognisable Format"), []) :=
  ((body_normalization_spec (fun _ => none) (fun _ => none) trivialHandler
      reqPostBody [] [] rfl (by decide)).1 rfl rfl).1

/-- Claim C9: the shared-secret guard raises an uncaught lookup error
(rather than returning a response) when the secret field, or the token
field, is missing from the request data; when both are present but they
do not both match the configured constants it returns the 401 Invalid
Token response. -/
theorem check_token_spec (SECRET_KEY TOKEN : String) (handler : Handler)
    (req : Request) (data : ReqData) (store : Store) :
    (dataGet? data "secret" = none →
      check_token SECRET_KEY TOKEN handler req data store =
        (.exc (.keyError "secret"), store)) ∧
    (∀ v, dataGet? data "secret" = some v → dataGet? data "token" = none →
      check_token SECRET_KEY TOKEN handler req data store =
        (.exc (.keyError "token"), store)) ∧
    (∀ sv tv, dataGet? data "secret" = some sv → dataGet? data "token" = some tv →
      ¬(sv = .vStr SECRET_KEY ∧ tv = .vStr TOKEN) →
      check_token SECRET_KEY TOKEN handler req data store =
        (.resp (errorResponse 401 "Invalid Token"), store)) := by
  refine ⟨?_, ?_, ?_⟩
  · intro hsec
    simp [check_token, hsec]
  · intro v hsec htok
    simp [check_token, hsec, htok]
  · intro sv tv hsec htok hne
    simp only [check_token, hsec, htok]
    rw [if_neg hne]

/-- Witness for C9: a present but mismatching secret yields the 401
Invalid Token response. -/
theorem check_token_spec_witness :
    check_token "s3cr3t" "t0k3n" trivialHandler reqPostHi
        [("secret", .vStr "wrong"), ("token", .vStr "t0k3n")] [] =
      (.resp (errorResponse 401 "Invalid Token"), []) :=
  (check_token_spec "s3cr3t" "t0k3n" trivialHandler reqPostHi
      [("secret", .vStr "wrong"), ("token", .vStr "t0k3n")] []).2.2
    (.vStr "wrong") (.vStr "t0k3n") (by decide) (by decide) (by decide)
